import Mathlib

/-!
Verification of the asynchronous task-orchestration core of the seq2func
repository against its natural-language specification.

The development shallowly embeds the Python sources:

* src/src/tasks/task_manager.py — TaskManager, CancellationToken,
  ProgressCallback (registry of tasks with progress, cancellation and a
  background reaper).  Python dictionaries are modelled as association
  lists; the Python objects stored in the task dictionary are mutated in
  place, so the registry is modelled with an explicit heap of task
  records and the dictionary maps task ids to heap references.  Wall
  clock readings (datetime.now()) are passed explicitly as natural
  numbers counting seconds.
* src/src/tools/screening.py — screen_paper / screen_association.  The
  LLM collaborator response is an input of the embedding: either a
  raised exception, an unparsable body, or a parsed JSON object with
  optional fields.
* src/src/tools/pubmed.py — build_search_query and search (including the
  try/except that converts an Entrez exception into a sentinel list).
* src/src/workflows/gene_search.py — GeneLiteratureSearch.search_gene,
  the pipeline state machine, with the cancellation token modelled as
  the sequence of values returned by its successive is_cancelled reads.
* src/server.py — run_gene_search_task, the worker glue.  Its
  workflow.search_gene call passes a gene_id keyword argument that
  GeneLiteratureSearch.search_gene does not accept, so in the source the
  call raises TypeError before the pipeline starts and the worker's
  except branch records the task as failed.
-/

/-! ## Association-list dictionaries (model of Python dict) -/

/-- Lookup in an association list, first binding wins; models Python
dictionary indexing (a Python dict has at most one binding per key). -/
def dictGet {α β : Type} [DecidableEq α] : List (α × β) → α → Option β
  | [], _ => none
  | e :: l, k => if e.1 = k then some e.2 else dictGet l k

/-- Keys of an association list. -/
def dictKeys {α β : Type} : List (α × β) → List α :=
  fun l => l.map Prod.fst

/-- Heap cell access: nth element of the heap, if present. -/
def heapGet {α : Type} : List α → Nat → Option α
  | [], _ => none
  | x :: _, 0 => some x
  | _ :: l, n + 1 => heapGet l n

/-- Heap cell update: replace the nth element of the heap (in-place object
mutation in Python). -/
def heapSet {α : Type} : List α → Nat → α → List α
  | [], _, _ => []
  | _ :: l, 0, x => x :: l
  | y :: l, n + 1, x => y :: heapSet l n x

theorem heapGet_heapSet_self {α : Type} {l : List α} {n : Nat} {t : α} (x : α)
    (h : heapGet l n = some t) : heapGet (heapSet l n x) n = some x := by
  induction l generalizing n with
  | nil => simp [heapGet] at h
  | cons y l ih =>
    cases n with
    | zero => simp [heapGet, heapSet]
    | succ m => simpa [heapGet, heapSet] using ih (n := m) (by simpa [heapGet] using h)

/-! ## Data model of task_manager.py -/

/-- ProgressInfo from task_manager.py: progress snapshot of a running task. -/
structure ProgressInfo where
  current_step : String
  step_number : Nat
  total_steps : Nat
  papers_screened : Option Nat := none
  total_papers : Option Nat := none
  message : String := ""
deriving DecidableEq, Repr

/-- TaskInfo from task_manager.py.  The result field is Python Any; the
embedding is parametric in the stored result type ρ.  Timestamps are
seconds as natural numbers. -/
structure TaskInfo (ρ : Type) where
  task_id : String
  status : String
  progress : Option ProgressInfo := none
  result : Option ρ := none
  error : Option String := none
  created_at : Nat
  updated_at : Nat
deriving DecidableEq, Repr

/-- TaskManager state: the heap of TaskInfo objects (Python objects are
mutated in place and may be aliased by callers of get_task), the tasks
dict mapping task id to the heap reference of its TaskInfo object, and
the cancellation_tokens dict mapping task id to the boolean cancelled
flag of the task's CancellationToken. -/
structure TaskManager (ρ : Type) where
  heap : List (TaskInfo ρ)
  tasks : List (String × Nat)
  tokens : List (String × Bool)
deriving DecidableEq, Repr

/-- Fresh TaskManager (TaskManager.__init__ with no tasks yet). -/
def emptyTM (ρ : Type) : TaskManager ρ := ⟨[], [], []⟩

/-- TaskManager.create_task: insert a pending TaskInfo and a fresh
(uncancelled) token under a fresh id.  uuid4 collision freedom is
modelled by the caller supplying the fresh id. -/
def create_task {ρ : Type} (tm : TaskManager ρ) (fresh_id : String) (now : Nat) :
    TaskManager ρ :=
  { heap := tm.heap ++
      [{ task_id := fresh_id, status := "pending", created_at := now,
         updated_at := now }],
    tasks := tm.tasks ++ [(fresh_id, tm.heap.length)],
    tokens := tm.tokens ++ [(fresh_id, false)] }

/-- TaskManager.get_task: returns self.tasks.get(task_id), i.e. the stored
object itself.  In the embedding the returned value is the heap
reference of that object; the caller reads its fields through deref. -/
def get_task {ρ : Type} (tm : TaskManager ρ) (task_id : String) : Option Nat :=
  dictGet tm.tasks task_id

/-- Read the fields of a task object previously obtained from get_task. -/
def deref {ρ : Type} (tm : TaskManager ρ) (r : Nat) : Option (TaskInfo ρ) :=
  heapGet tm.heap r

/-- Common shape of the mutating registry operations: if the id is bound,
mutate the bound TaskInfo object in place, otherwise no-op. -/
def mutateTask {ρ : Type} (tm : TaskManager ρ) (task_id : String)
    (f : TaskInfo ρ → TaskInfo ρ) : TaskManager ρ :=
  match dictGet tm.tasks task_id with
  | none => tm
  | some r =>
    match heapGet tm.heap r with
    | none => tm
    | some t => { tm with heap := heapSet tm.heap r (f t) }

/-- TaskManager.update_status. -/
def update_status {ρ : Type} (tm : TaskManager ρ) (task_id : String)
    (status : String) (now : Nat) : TaskManager ρ :=
  mutateTask tm task_id (fun t => { t with status := status, updated_at := now })

/-- TaskManager.update_progress: note that the source sets the status to
"running" unconditionally whenever the id is present. -/
def update_progress {ρ : Type} (tm : TaskManager ρ) (task_id : String)
    (progress : ProgressInfo) (now : Nat) : TaskManager ρ :=
  mutateTask tm task_id (fun t =>
    { t with progress := some progress, status := "running", updated_at := now })

/-- TaskManager.set_result. -/
def set_result {ρ : Type} (tm : TaskManager ρ) (task_id : String) (result : ρ)
    (now : Nat) : TaskManager ρ :=
  mutateTask tm task_id (fun t =>
    { t with result := some result, status := "completed", updated_at := now })

/-- TaskManager.set_error. -/
def set_error {ρ : Type} (tm : TaskManager ρ) (task_id : String) (error : String)
    (now : Nat) : TaskManager ρ :=
  mutateTask tm task_id (fun t =>
    { t with error := some error, status := "failed", updated_at := now })

/-- TaskManager.cancel_task: if a token exists for the id, flip it, and if
the task also exists set its status to "cancelled" and refresh
updated_at; returns whether a token was found. -/
def cancel_task {ρ : Type} (tm : TaskManager ρ) (task_id : String) (now : Nat) :
    Bool × TaskManager ρ :=
  match dictGet tm.tokens task_id with
  | none => (false, tm)
  | some _ =>
    let tm1 : TaskManager ρ :=
      { tm with tokens := tm.tokens.map (fun e => if e.1 = task_id then (e.1, true) else e) }
    (true, mutateTask tm1 task_id (fun t =>
      { t with status := "cancelled", updated_at := now }))

/-- Terminal statuses, as listed in _cleanup_old_tasks. -/
def isTerminal (s : String) : Bool :=
  s = "completed" || s = "cancelled" || s = "failed"

/-- Condition under which _cleanup_old_tasks removes a tasks-dict entry:
terminal status and updated_at older than the one-hour cutoff. -/
def shouldRemove {ρ : Type} (tm : TaskManager ρ) (now : Nat) (e : String × Nat) :
    Bool :=
  match heapGet tm.heap e.2 with
  | some t => isTerminal t.status && decide (t.updated_at < now - 3600)
  | none => false

/-- One sweep of the _cleanup_old_tasks loop body: collect the ids of old
terminal tasks, then delete them from both dicts (the TaskInfo objects
themselves are garbage collected by Python, not overwritten; the heap is
left untouched). -/
def cleanup_old_tasks {ρ : Type} (tm : TaskManager ρ) (now : Nat) :
    TaskManager ρ :=
  let removeIds := dictKeys (tm.tasks.filter (fun e => shouldRemove tm now e))
  { tm with
    tasks := tm.tasks.filter (fun e => !(decide (e.1 ∈ removeIds))),
    tokens := tm.tokens.filter (fun e => !(decide (e.1 ∈ removeIds))) }

/-- Status of the task currently bound to an id, as a poller reading
through get_task would observe it. -/
def task_status {ρ : Type} (tm : TaskManager ρ) (task_id : String) :
    Option String :=
  match dictGet tm.tasks task_id with
  | none => none
  | some r => (heapGet tm.heap r).map TaskInfo.status

/-- Error field of the task currently bound to an id. -/
def task_error {ρ : Type} (tm : TaskManager ρ) (task_id : String) :
    Option (Option String) :=
  match dictGet tm.tasks task_id with
  | none => none
  | some r => (heapGet tm.heap r).map TaskInfo.error

/-- Updated-at field of the task currently bound to an id. -/
def task_updated {ρ : Type} (tm : TaskManager ρ) (task_id : String) :
    Option Nat :=
  match dictGet tm.tasks task_id with
  | none => none
  | some r => (heapGet tm.heap r).map TaskInfo.updated_at

/-! ## Data model of screening.py -/

/-- Outcome of the LLM collaborator call inside Screening.screen_paper:
the invoke raised, the content failed json.loads (after markdown code
fences were stripped), or it parsed to a JSON object whose three fields
are each either present or absent.  Relevance scores are rationals (the
source holds Python floats in [0,1]; no float rounding is involved in
any property below). -/
inductive LLMOutcome where
  | raised (msg : String)
  | unparsable (msg : String) (raw : String)
  | parsed (relevant : Option Bool) (score : Option ℚ) (reasoning : Option String)
deriving DecidableEq, Repr

/-- Return value of Screening.screen_paper. -/
structure ScreenResult where
  relevant : Bool
  score : ℚ
  reasoning : String
deriving DecidableEq, Repr

/-- Screening.screen_paper: empty title or abstract short-circuit before
any LLM call; otherwise the parsed response is completed with the
defaults of the source ("No reasoning provided", 0.0, False) and the two
except branches produce their diagnostic records. -/
def screen_paper (title abstract : String) (keywords : List String)
    (llm : LLMOutcome) : ScreenResult :=
  if title = "" then
    { relevant := false, score := 0, reasoning := "Missing title" }
  else if abstract = "" then
    { relevant := false, score := 0, reasoning := "Missing abstract" }
  else
    match llm with
    | .parsed rel sc reas =>
      { relevant := rel.getD false, score := sc.getD 0,
        reasoning := reas.getD "No reasoning provided" }
    | .unparsable msg raw =>
      { relevant := false, score := 0,
        reasoning := "LLM response parsing error: " ++ msg ++ ". Raw: " ++ raw.take 200 }
    | .raised msg =>
      { relevant := false, score := 0, reasoning := "Screening error: " ++ msg }

/-- Outcome of the LLM collaborator call inside
Screening.screen_association. -/
inductive AssocLLMOutcome where
  | raised (msg : String)
  | unparsable (msg : String)
  | parsed (modEff : Option String) (longAssoc : Option String)
deriving DecidableEq, Repr

/-- Return value of Screening.screen_association. -/
structure AssocResult where
  modification_effects : String
  longevity_association : String
deriving DecidableEq, Repr

/-- Screening.screen_association: empty title or abstract short-circuit
before any LLM call with both fields "Not specified"; a parsed response
is completed with "Not specified" defaults; the json.JSONDecodeError
branch yields a "Parsing error: ..." first field and the generic except
branch an "Extraction error: ..." first field, both with second field
"Not specified". -/
def screen_association (title abstract : String) (keywords : List String)
    (llm : AssocLLMOutcome) : AssocResult :=
  if title = "" then
    { modification_effects := "Not specified", longevity_association := "Not specified" }
  else if abstract = "" then
    { modification_effects := "Not specified", longevity_association := "Not specified" }
  else
    match llm with
    | .parsed modEff longAssoc =>
      { modification_effects := modEff.getD "Not specified",
        longevity_association := longAssoc.getD "Not specified" }
    | .unparsable msg =>
      { modification_effects := "Parsing error: " ++ msg,
        longevity_association := "Not specified" }
    | .raised msg =>
      { modification_effects := "Extraction error: " ++ msg,
        longevity_association := "Not specified" }

/-! ## Data model of pubmed.py -/

/-- Aging-related query terms from PubMed.build_search_query. -/
def agingTermsBase : List String :=
  ["aging", "longevity", "lifespan", "healthspan", "life span",
   "centenarian", "survival", "senescence", "age-related"]

/-- Reprogramming terms added when include_reprogramming is set. -/
def reprogrammingTerms : List String :=
  ["reprogramming", "cellular reprogramming", "Yamanaka factors"]

/-- PubMed.build_search_query: deterministic query construction. -/
def build_search_query (gene_name : String) (include_reprogramming : Bool)
    (custom_terms : Option (List String)) : String :=
  let terms := agingTermsBase
    ++ (if include_reprogramming then reprogrammingTerms else [])
    ++ (match custom_terms with | some ts => ts | none => [])
  let terms_str := String.intercalate " OR " (terms.map (fun t => t ++ "[TIAB]"))
  gene_name ++ "[TIAB] AND (" ++ terms_str ++ ")" ++ " NOT (Review[PT])"
    ++ " AND hasabstract"

/-- Behaviour of the Entrez.esearch/Entrez.read call inside the try block
of PubMed.search: it either returns a list of PMIDs or raises. -/
inductive EntrezOutcome where
  | ok (ids : List String)
  | raise (msg : String)
deriving DecidableEq, Repr

/-- PubMed.search: the whole body is wrapped in try/except Exception, so
an Entrez exception never propagates; it is converted into a one-element
list containing an error message string, which the caller receives in
place of a PMID list. -/
def pubmed_search (query : String) (eo : EntrezOutcome) : List String :=
  match eo with
  | .ok ids => ids
  | .raise msg => ["Error searching PubMed: " ++ msg]

/-- Metadata record produced by PubMed.fetch for one paper, after the
collaborator-boundary defaults of the source (dict .get with default "",
respectively []) have been applied. -/
structure Paper where
  pmid : String
  title : String
  abstract : String
  year : String
  journal : String
  mesh_terms : List String
  url : String
deriving DecidableEq, Repr

/-! ## Data model of gene_search.py (search_gene pipeline) -/

/-- One row of the pipeline result, as assembled in search_gene.  The
fields abstract and mesh_terms are carried as options because the source
pops them from the dict after association extraction; the two extracted
fields are options because they are only added during extraction. -/
structure ScreenRecord where
  symbol : String
  pmid : String
  title : String
  year : String
  journal : String
  abstract : Option String
  mesh_terms : Option (List String)
  score : ℚ
  relevant : Bool
  reasoning : String
  search_date : String
  url : String
  modification_effects : Option String
  longevity_association : Option String
deriving DecidableEq, Repr

/-- Row built for one screened paper in the step-4 loop of search_gene. -/
def screenRec (gene_symbol search_date : String) (llm : LLMOutcome) (p : Paper) :
    ScreenRecord :=
  let sr := screen_paper p.title p.abstract p.mesh_terms llm
  { symbol := gene_symbol, pmid := p.pmid, title := p.title, year := p.year,
    journal := p.journal, abstract := some p.abstract,
    mesh_terms := some p.mesh_terms, score := sr.score, relevant := sr.relevant,
    reasoning := sr.reasoning, search_date := search_date, url := p.url,
    modification_effects := none, longevity_association := none }

/-- The step-4 screening loop of search_gene.  tok is the sequence of
values returned by the successive CancellationToken.is_cancelled reads
of the whole pipeline and readIdx the index of the next read; the loop
performs one read before each paper and stops at the first true.
paperIdx indexes the per-paper LLM outcomes.  Returns the accumulated
rows and the next read index. -/
def screenLoop (gene_symbol search_date : String) (sLLM : Nat → LLMOutcome)
    (tok : Nat → Bool) : Nat → Nat → List Paper → List ScreenRecord × Nat
  | readIdx, _, [] => ([], readIdx)
  | readIdx, paperIdx, p :: rest =>
    if tok readIdx then ([], readIdx + 1)
    else
      (screenRec gene_symbol search_date (sLLM paperIdx) p
         :: (screenLoop gene_symbol search_date sLLM tok (readIdx + 1)
              (paperIdx + 1) rest).1,
       (screenLoop gene_symbol search_date sLLM tok (readIdx + 1)
         (paperIdx + 1) rest).2)

/-- Association extraction applied to one top-ranked row (step-6 loop
body): add the two extracted fields and pop abstract and mesh_terms. -/
def extractOne (llm : AssocLLMOutcome) (r : ScreenRecord) : ScreenRecord :=
  let a := screen_association r.title (r.abstract.getD "") (r.mesh_terms.getD []) llm
  { r with modification_effects := some a.modification_effects,
           longevity_association := some a.longevity_association,
           abstract := none, mesh_terms := none }

/-- The step-6 extraction loop of search_gene: one cancellation read
before each item; on a true read the remaining items are returned without
extracted fields (the source breaks out of the loop and returns the
partially mutated top_results list). -/
def extractLoop (aLLM : Nat → AssocLLMOutcome) (tok : Nat → Bool) :
    Nat → Nat → List ScreenRecord → List ScreenRecord × Nat
  | readIdx, _, [] => ([], readIdx)
  | readIdx, i, r :: rest =>
    if tok readIdx then (r :: rest, readIdx + 1)
    else
      (extractOne (aLLM i) r :: (extractLoop aLLM tok (readIdx + 1) (i + 1) rest).1,
       (extractLoop aLLM tok (readIdx + 1) (i + 1) rest).2)

/-- Comparison underlying the sort in step 5 of search_gene: scoreGE a b
holds when a may precede b in the descending order, i.e. b.score ≤
a.score. -/
def scoreGE (a b : ScreenRecord) : Bool := decide (b.score ≤ a.score)

/-- Stable descending insertion of a row into an already descending list:
the new row goes after every existing row whose score is at least its
own (existing rows come from earlier positions of the original list, so
equal scores keep original order). -/
def insertDesc (r : ScreenRecord) : List ScreenRecord → List ScreenRecord
  | [] => [r]
  | x :: xs => if scoreGE x r then x :: insertDesc r xs else r :: x :: xs

/-- Left fold of insertDesc over the input list. -/
def sortDescAux : List ScreenRecord → List ScreenRecord → List ScreenRecord
  | acc, [] => acc
  | acc, r :: rs => sortDescAux (insertDesc r acc) rs

/-- Model of the step-5 sort of search_gene, Python
sorted(key=score, reverse=True): a stable sort, descending by score,
ties kept in original order.  A stable descending sort is a unique
function of its input, so this structurally recursive insertion sort
computes exactly the Python sort. -/
def sortDesc (l : List ScreenRecord) : List ScreenRecord :=
  sortDescAux [] l

/-- GeneLiteratureSearch.search_gene.  Collaborator behaviour is supplied
as inputs: eo for the Entrez search call, fetchFn for PubMed.fetch, sLLM
and aLLM for the per-item LLM outcomes, tok for the successive
cancellation-token reads.  Progress reporting and stdout printing have
no effect on the returned value and are omitted.  The reads happen in
source order: read 0 after BuildQuery, read 1 after Search, read 2 after
FetchMetadata, one read before each screened paper, one read before
RankAndSelect returns, one read before each extracted item. -/
def search_gene (gene_symbol : String) (max_results top_n : Nat)
    (include_reprogramming : Bool) (custom_terms : Option (List String))
    (eo : EntrezOutcome) (fetchFn : List String → List Paper)
    (sLLM : Nat → LLMOutcome) (aLLM : Nat → AssocLLMOutcome)
    (tok : Nat → Bool) (search_date : String) : List ScreenRecord :=
  let query := build_search_query gene_symbol include_reprogramming custom_terms
  if tok 0 then []
  else
    let pmids := pubmed_search query eo
    if pmids.isEmpty then []
    else if tok 1 then []
    else
      let papers := fetchFn pmids
      if tok 2 then []
      else
        let (results, ri) := screenLoop gene_symbol search_date sLLM tok 3 0 papers
        let relevant_results := results.filter (fun r => r.relevant)
        let results_sorted := sortDesc relevant_results
        let top_results := results_sorted.take top_n
        if tok ri then top_results
        else if top_results.isEmpty then top_results
        else (extractLoop aLLM tok (ri + 1) 0 top_results).1

/-! ## Data model of server.py (run_gene_search_task) -/

/-- Result payload the worker would store via set_result on its success
branch: the dict with keys results and count built in
run_gene_search_task.  In the source that branch is never reached (see
run_gene_search_task below), but it fixes the result type the server
registry is declared to hold. -/
structure SearchPayload where
  results : List ScreenRecord
  count : Nat
deriving DecidableEq, Repr

/-- run_gene_search_task from server.py: the worker body.  After the
get_task guard, the source calls workflow.search_gene with a gene_id
keyword argument, but GeneLiteratureSearch.search_gene
(gene_search.py:45-54) has no gene_id parameter and no kwargs, so the
call raises TypeError before the pipeline body starts; the worker's
except Exception branch records str(e) via set_error, and the
cancelled-check / set_result code after the call is unreachable.
typeErrorMsg stands for str(e) of that TypeError; its exact wording is
supplied by the Python runtime, not by this repository. -/
def run_gene_search_task (tm : TaskManager SearchPayload) (task_id : String)
    (typeErrorMsg : String) (now : Nat) : TaskManager SearchPayload :=
  match get_task tm task_id with
  | none => tm
  | some _ => set_error tm task_id typeErrorMsg now

/-! ## Generic lemmas about the registry embedding -/

theorem dictGet_mem {α β : Type} [DecidableEq α] {l : List (α × β)} {k : α} {v : β}
    (h : dictGet l k = some v) : (k, v) ∈ l := by
  induction l with
  | nil => simp [dictGet] at h
  | cons e l ih =>
    obtain ⟨e1, e2⟩ := e
    by_cases he : e1 = k
    · subst he
      simp only [dictGet, if_pos rfl] at h
      injection h with h
      subst h
      exact List.mem_cons_self _ _
    · simp only [dictGet] at h
      rw [if_neg he] at h
      exact List.mem_cons_of_mem _ (ih h)

theorem mutateTask_tasks {ρ : Type} (tm : TaskManager ρ) (task_id : String)
    (f : TaskInfo ρ → TaskInfo ρ) : (mutateTask tm task_id f).tasks = tm.tasks := by
  unfold mutateTask
  split
  · rfl
  · split
    · rfl
    · rfl

theorem mutateTask_tokens {ρ : Type} (tm : TaskManager ρ) (task_id : String)
    (f : TaskInfo ρ → TaskInfo ρ) : (mutateTask tm task_id f).tokens = tm.tokens := by
  unfold mutateTask
  split
  · rfl
  · split
    · rfl
    · rfl

theorem mutateTask_deref {ρ : Type} (tm : TaskManager ρ) (task_id : String)
    (f : TaskInfo ρ → TaskInfo ρ) {r : Nat} {t : TaskInfo ρ}
    (hr : dictGet tm.tasks task_id = some r) (ht : heapGet tm.heap r = some t) :
    deref (mutateTask tm task_id f) r = some (f t) := by
  unfold mutateTask deref
  rw [hr]
  dsimp only
  rw [ht]
  dsimp only
  exact heapGet_heapSet_self (f t) ht

theorem mutateTask_status {ρ : Type} (tm : TaskManager ρ) (task_id : String)
    (f : TaskInfo ρ → TaskInfo ρ) {r : Nat} {t : TaskInfo ρ}
    (hr : dictGet tm.tasks task_id = some r) (ht : heapGet tm.heap r = some t) :
    task_status (mutateTask tm task_id f) task_id = some (f t).status := by
  have hd := mutateTask_deref tm task_id f hr ht
  unfold deref at hd
  unfold task_status
  rw [mutateTask_tasks, hr]
  dsimp only
  rw [hd]
  rfl

/-! ## Claim C1 — status transitions -/

/-- C1 counterexample: the claim states that a task whose status is
terminal is never set back to a non-terminal status by any registry
operation, in particular not by a worker progress update.  In the
source, TaskManager.update_progress sets status to "running"
unconditionally: a cancelled task (terminal) becomes "running" again
after ProgressCallback.update. -/
theorem C1_terminal_to_running_counterexample :
    task_status (cancel_task (create_task (emptyTM Unit) "a" 0) "a" 1).2 "a"
      = some "cancelled" ∧
    task_status
      (update_progress (cancel_task (create_task (emptyTM Unit) "a" 0) "a" 1).2 "a"
        ⟨"Screening papers", 4, 4, some 1, some 5, "Screening paper 1/5"⟩ 2) "a"
      = some "running" := by
  decide

/-- C1 amended: update_progress forces the status of any existing task to
"running" unconditionally, even when the current status is terminal;
status monotonicity therefore does not hold, and a terminal task can be
followed by the non-terminal status "running" after a worker progress
update. -/
theorem C1_update_progress_forces_running {ρ : Type} (tm : TaskManager ρ)
    (task_id : String) (p : ProgressInfo) (now : Nat) {r : Nat} {t : TaskInfo ρ}
    (hr : dictGet tm.tasks task_id = some r)
    (ht : heapGet tm.heap r = some t) :
    task_status (update_progress tm task_id p now) task_id = some "running" := by
  unfold update_progress
  rw [mutateTask_status tm task_id _ hr ht]

/-- C1 amended, witnessed on a concrete cancelled task. -/
theorem C1_update_progress_forces_running_witness :
    task_status
      (update_progress (cancel_task (create_task (emptyTM Unit) "b" 0) "b" 1).2 "b"
        ⟨"Screening papers", 4, 4, some 2, some 5, ""⟩ 2) "b"
      = some "running" :=
  @C1_update_progress_forces_running Unit
    (cancel_task (create_task (emptyTM Unit) "b" 0) "b" 1).2 "b"
    ⟨"Screening papers", 4, 4, some 2, some 5, ""⟩ 2 0
    ⟨"b", "cancelled", none, none, none, 0, 1⟩ (by decide) (by decide)

/-! ## Claim C5 — get_task snapshot vs live reference -/

/-- C5 counterexample: the claim states that the value returned by
get_task is a point-in-time snapshot unaffected by later mutations.  In
the source, get_task returns the TaskInfo object stored in the dict
itself, and update_status mutates that same object in place: the status
field read through the previously returned reference changes from
"pending" to "running". -/
theorem C5_live_reference_counterexample :
    get_task (create_task (emptyTM Unit) "c" 0) "c" = some 0 ∧
    (deref (create_task (emptyTM Unit) "c" 0) 0).map TaskInfo.status
      = some "pending" ∧
    (deref (update_status (create_task (emptyTM Unit) "c" 0) "c" "running" 1) 0).map
        TaskInfo.status
      = some "running" := by
  decide

/-- C5 amended: get_task returns a live reference to the mutable TaskInfo
object, not a value snapshot: any subsequent update_status on the same
id is observed through the previously returned reference, whose status
and updated_at fields now show the new values. -/
theorem C5_mutation_visible_through_reference {ρ : Type} (tm : TaskManager ρ)
    (task_id status : String) (now : Nat) {r : Nat} {t : TaskInfo ρ}
    (hget : get_task tm task_id = some r)
    (ht : heapGet tm.heap r = some t) :
    deref (update_status tm task_id status now) r
      = some { t with status := status, updated_at := now } := by
  unfold update_status
  exact mutateTask_deref tm task_id _ hget ht

/-- C5 amended, witnessed on a concrete registry. -/
theorem C5_mutation_visible_through_reference_witness :
    deref (update_status (create_task (emptyTM Unit) "c" 0) "c" "running" 1) 0
      = some ⟨"c", "running", none, none, none, 0, 1⟩ :=
  @C5_mutation_visible_through_reference Unit (create_task (emptyTM Unit) "c" 0)
    "c" "running" 1 0 ⟨"c", "pending", none, none, none, 0, 0⟩
    (by decide) (by decide)

/-! ## Claim C6 — cancel_task on a terminal task -/

/-- C6 counterexample: the claim states that cancel_task on a task whose
status is already terminal returns the found acknowledgement but leaves
status, result, error and updated_at unchanged.  In the source,
cancel_task unconditionally overwrites status with "cancelled" and
refreshes updated_at: on a completed task the observed status changes
from "completed" to "cancelled" and updated_at from 1 to 2. -/
theorem C6_cancel_overwrites_terminal_counterexample :
    task_status (set_result (create_task (emptyTM Unit) "d" 0) "d" () 1) "d"
      = some "completed" ∧
    task_updated (set_result (create_task (emptyTM Unit) "d" 0) "d" () 1) "d"
      = some 1 ∧
    (cancel_task (set_result (create_task (emptyTM Unit) "d" 0) "d" () 1) "d" 2).1
      = true ∧
    task_status (cancel_task (set_result (create_task (emptyTM Unit) "d" 0) "d" () 1) "d" 2).2 "d"
      = some "cancelled" ∧
    task_updated (cancel_task (set_result (create_task (emptyTM Unit) "d" 0) "d" () 1) "d" 2).2 "d"
      = some 2 := by
  decide

/-- C6 amended: cancel_task on any found task — terminal or not — returns
true, flips the token, overwrites status to "cancelled" and refreshes
updated_at, while leaving progress, result and error unchanged; the
same holds for a second cancel_task on an already-cancelled task, whose
updated_at is refreshed again. -/
theorem C6_cancel_task_found_behaviour {ρ : Type} (tm : TaskManager ρ)
    (task_id : String) (now : Nat) {b : Bool} {r : Nat} {t : TaskInfo ρ}
    (htok : dictGet tm.tokens task_id = some b)
    (hr : dictGet tm.tasks task_id = some r)
    (ht : heapGet tm.heap r = some t) :
    (cancel_task tm task_id now).1 = true ∧
    deref (cancel_task tm task_id now).2 r
      = some { t with status := "cancelled", updated_at := now } := by
  unfold cancel_task
  rw [htok]
  dsimp only
  exact ⟨rfl, mutateTask_deref _ task_id _ hr ht⟩

/-- C6 amended, witnessed on a concrete completed task: the status is
overwritten and updated_at refreshed, result kept. -/
theorem C6_cancel_task_found_behaviour_witness :
    (cancel_task (set_result (create_task (emptyTM Unit) "e" 0) "e" () 1) "e" 2).1
      = true ∧
    deref (cancel_task (set_result (create_task (emptyTM Unit) "e" 0) "e" () 1) "e" 2).2 0
      = some ⟨"e", "cancelled", none, some (), none, 0, 2⟩ :=
  @C6_cancel_task_found_behaviour Unit
    (set_result (create_task (emptyTM Unit) "e" 0) "e" () 1) "e" 2 false 0
    ⟨"e", "completed", none, some (), none, 0, 1⟩
    (by decide) (by decide) (by decide)

/-! ## Claim C3 — default when the relevant flag is absent -/

/-- C3 counterexample: the claim states that when the parsed collaborator
response lacks the relevant flag, the recorded relevance is true iff
the recorded score is at least 0.5.  In the source the absent flag is
defaulted to False unconditionally: with a parsed score of 0.9 and no
flag, the recorded relevance is false although 0.9 is at least 0.5. -/
theorem C3_default_relevance_counterexample :
    (screen_paper "KEAP1 mutation extends lifespan" "Abstract body." []
        (.parsed none (some (9 / 10)) (some "strong evidence"))).relevant = false ∧
    (1 / 2 : ℚ) ≤ (screen_paper "KEAP1 mutation extends lifespan" "Abstract body."
        [] (.parsed none (some (9 / 10)) (some "strong evidence"))).score ∧
    ¬ (((screen_paper "KEAP1 mutation extends lifespan" "Abstract body." []
          (.parsed none (some (9 / 10)) (some "strong evidence"))).relevant = true)
        ↔ (1 / 2 : ℚ) ≤ (screen_paper "KEAP1 mutation extends lifespan"
          "Abstract body." []
          (.parsed none (some (9 / 10)) (some "strong evidence"))).score) := by
  have h : screen_paper "KEAP1 mutation extends lifespan" "Abstract body." []
      (.parsed none (some (9 / 10)) (some "strong evidence"))
      = ⟨false, 9 / 10, "strong evidence"⟩ := by
    simp [screen_paper]
  rw [h]
  refine ⟨rfl, by norm_num, ?_⟩
  simp only [iff_iff_implies_and_implies]
  intro hc
  obtain ⟨-, h2⟩ := hc
  have := h2 (by norm_num)
  simp at this

/-- C3 amended: when the response parses but lacks the relevant flag, the
recorded relevance is False regardless of the score (the score ≥ 0.5
threshold exists only in the prompt text given to the collaborator, not
in the fallback of screen_paper); the recorded score is the parsed one,
defaulting to 0. -/
theorem C3_absent_flag_defaults_to_false (title abstract : String)
    (keywords : List String) (sc : Option ℚ) (reas : Option String)
    (ht : title ≠ "") (ha : abstract ≠ "") :
    (screen_paper title abstract keywords (.parsed none sc reas)).relevant = false ∧
    (screen_paper title abstract keywords (.parsed none sc reas)).score = sc.getD 0 := by
  simp [screen_paper, ht, ha]

/-- C3 amended, witnessed at a parsed score of 0.9 with no flag. -/
theorem C3_absent_flag_defaults_to_false_witness :
    (screen_paper "T" "A" [] (.parsed none (some (9 / 10)) none)).relevant = false ∧
    (screen_paper "T" "A" [] (.parsed none (some (9 / 10)) none)).score
      = (some ((9 : ℚ) / 10)).getD 0 :=
  C3_absent_flag_defaults_to_false "T" "A" [] (some (9 / 10)) none
    (by decide) (by decide)

/-! ## Claim C7 — extraction failure substitution -/

/-- C7 counterexample: the claim states that when the structured
extraction collaborator fails, both extracted fields are substituted
with "Not specified".  In the source, only longevity_association gets
"Not specified"; modification_effects receives a diagnostic string, here
"Extraction error: boom". -/
theorem C7_substitution_counterexample :
    (screen_association "T1" "A1" [] (.raised "boom")).modification_effects
      = "Extraction error: boom" ∧
    (screen_association "T1" "A1" [] (.raised "boom")).modification_effects
      ≠ "Not specified" ∧
    (screen_association "T1" "A1" [] (.raised "boom")).longevity_association
      = "Not specified" := by
  decide

/-- C7 amended: for a top-ranked item whose extraction collaborator call
fails, screen_association returns (without raising) a record whose
longevity_association is "Not specified" and whose modification_effects
is a diagnostic string: "Extraction error: " followed by the exception
message when the call raised, "Parsing error: " followed by the decode
error when the output was unparsable. -/
theorem C7_extraction_failure_fields (title abstract : String)
    (keywords : List String) (msg : String)
    (ht : title ≠ "") (ha : abstract ≠ "") :
    screen_association title abstract keywords (.raised msg)
      = ⟨"Extraction error: " ++ msg, "Not specified"⟩ ∧
    screen_association title abstract keywords (.unparsable msg)
      = ⟨"Parsing error: " ++ msg, "Not specified"⟩ := by
  simp [screen_association, ht, ha]

/-- C7 amended, witnessed at a concrete failing extraction. -/
theorem C7_extraction_failure_fields_witness :
    screen_association "T2" "A2" ["Aging"] (.raised "timeout")
      = ⟨"Extraction error: timeout", "Not specified"⟩ ∧
    screen_association "T2" "A2" ["Aging"] (.unparsable "timeout")
      = ⟨"Parsing error: timeout", "Not specified"⟩ :=
  C7_extraction_failure_fields "T2" "A2" ["Aging"] "timeout"
    (by decide) (by decide)

/-! ## Claim C10 — missing title or abstract short-circuits -/

/-- C10: with an empty (or absent, which arrives as empty after the
collaborator-boundary defaults) title or abstract, screen_paper returns
the fixed record {relevant: false, score: 0.0} with reasoning
"Missing title" respectively "Missing abstract", and screen_association
returns both fields "Not specified"; both results are independent of
the LLM collaborator outcome, which is never consulted. -/
theorem C10_missing_fields_short_circuit (title abstract : String)
    (keywords : List String) (llm : LLMOutcome) (allm : AssocLLMOutcome)
    (h : title = "" ∨ abstract = "") :
    screen_paper title abstract keywords llm
      = (if title = "" then ⟨false, 0, "Missing title"⟩
         else ⟨false, 0, "Missing abstract"⟩) ∧
    screen_association title abstract keywords allm
      = ⟨"Not specified", "Not specified"⟩ := by
  rcases h with h | h
  · simp [screen_paper, screen_association, h]
  · by_cases ht : title = ""
    · simp [screen_paper, screen_association, ht]
    · simp [screen_paper, screen_association, ht, h]

/-- C10, witnessed at an empty abstract with an arbitrary (raising) LLM
outcome. -/
theorem C10_missing_fields_short_circuit_witness :
    screen_paper "NRF2 activation" "" ["Aging"] (.raised "never called")
      = (if "NRF2 activation" = "" then ⟨false, 0, "Missing title"⟩
         else ⟨false, 0, "Missing abstract"⟩) ∧
    screen_association "NRF2 activation" "" ["Aging"] (.raised "never called")
      = ⟨"Not specified", "Not specified"⟩ :=
  C10_missing_fields_short_circuit "NRF2 activation" "" ["Aging"]
    (.raised "never called") (.raised "never called") (Or.inr rfl)

/-! ## Dictionary lemmas for the reaper -/

theorem dictGet_filter_keep {α β : Type} [DecidableEq α] {l : List (α × β)}
    {k : α} {v : β} {p : α × β → Bool}
    (h : dictGet l k = some v) (hp : p (k, v) = true) :
    dictGet (l.filter p) k = some v := by
  induction l with
  | nil => simp [dictGet] at h
  | cons e l ih =>
    obtain ⟨e1, e2⟩ := e
    by_cases he : e1 = k
    · subst he
      simp only [dictGet, if_pos rfl] at h
      injection h with h
      subst h
      rw [List.filter_cons, if_pos hp]
      simp [dictGet]
    · simp only [dictGet] at h
      rw [if_neg he] at h
      rw [List.filter_cons]
      by_cases hpe : p (e1, e2) = true
      · rw [if_pos hpe]
        simp only [dictGet]
        rw [if_neg he]
        exact ih h
      · rw [if_neg hpe]
        exact ih h

theorem dictGet_filter_none {α β : Type} [DecidableEq α] {l : List (α × β)}
    {k : α} {p : α × β → Bool}
    (hall : ∀ e ∈ l, e.1 = k → p e = false) :
    dictGet (l.filter p) k = none := by
  induction l with
  | nil => simp [dictGet]
  | cons e l ih =>
    rw [List.filter_cons]
    have ihl := ih (fun e he => hall e (List.mem_cons_of_mem _ he))
    by_cases hpe : p e = true
    · rw [if_pos hpe]
      simp only [dictGet]
      by_cases he : e.1 = k
      · exact absurd hpe (by simp [hall e (List.mem_cons_self _ _) he])
      · rw [if_neg he]
        exact ihl
    · rw [if_neg hpe]
      exact ihl

theorem dictKeys_filter_subset {α β : Type} {l : List (α × β)} {q : α × β → Bool} :
    ∀ x ∈ dictKeys (l.filter q), x ∈ dictKeys l := by
  intro x hx
  unfold dictKeys at hx ⊢
  obtain ⟨e, he, rfl⟩ := List.mem_map.mp hx
  exact List.mem_map_of_mem _ ((List.filter_sublist l).subset he)

theorem dictKeys_filter_mem_iff {α β : Type} [DecidableEq α] {l : List (α × β)}
    {k : α} {v : β} {q : α × β → Bool}
    (hnd : (dictKeys l).Nodup) (h : dictGet l k = some v) :
    (k ∈ dictKeys (l.filter q)) ↔ q (k, v) = true := by
  induction l with
  | nil => simp [dictGet] at h
  | cons e l ih =>
    obtain ⟨e1, e2⟩ := e
    simp only [dictKeys, List.map_cons, List.nodup_cons] at hnd
    by_cases he : e1 = k
    · subst he
      simp only [dictGet, if_pos rfl] at h
      injection h with h
      subst h
      rw [List.filter_cons]
      by_cases hq : q (e1, e2) = true
      · rw [if_pos hq]
        simp [dictKeys, hq]
      · rw [if_neg hq]
        constructor
        · intro hmem
          exact absurd (dictKeys_filter_subset _ hmem) (by simpa [dictKeys] using hnd.1)
        · intro hc
          exact absurd hc hq
    · simp only [dictGet] at h
      rw [if_neg he] at h
      have ihl := ih hnd.2 h
      rw [List.filter_cons]
      by_cases hq : q (e1, e2) = true
      · rw [if_pos hq]
        simp only [dictKeys, List.map_cons, List.mem_cons]
        rw [← ihl]
        constructor
        · intro hc
          rcases hc with hc | hc
          · exact absurd hc.symm he
          · exact hc
        · intro hc
          exact Or.inr hc
      · rw [if_neg hq]
        exact ihl

/-! ## Claim C9 — reaper removal condition -/

theorem shouldRemove_eq {ρ : Type} (tm : TaskManager ρ) (now : Nat)
    (task_id : String) (r : Nat) {t : TaskInfo ρ}
    (ht : heapGet tm.heap r = some t) :
    shouldRemove tm now (task_id, r)
      = (isTerminal t.status && decide (t.updated_at < now - 3600)) := by
  unfold shouldRemove
  rw [ht]

/-- C9: one sweep of the reaper removes the tasks-dict entry of a task iff
its status is terminal (completed, cancelled or failed) and its
updated_at is older than the one-hour cutoff; a pending or running task,
and any task at least as young as the cutoff, is kept with its binding
intact; and when a task is removed, its cancellation-token entry is
removed with it. -/
theorem C9_reaper_removal_condition {ρ : Type} (tm : TaskManager ρ) (now : Nat)
    (task_id : String) {r : Nat} {t : TaskInfo ρ}
    (hnd : (dictKeys tm.tasks).Nodup)
    (hr : dictGet tm.tasks task_id = some r)
    (ht : heapGet tm.heap r = some t) :
    ((t.status = "pending" ∨ t.status = "running" ∨ now - 3600 ≤ t.updated_at) →
      dictGet (cleanup_old_tasks tm now).tasks task_id = some r) ∧
    (dictGet (cleanup_old_tasks tm now).tasks task_id = none →
      isTerminal t.status = true ∧ t.updated_at < now - 3600) ∧
    (isTerminal t.status = true → t.updated_at < now - 3600 →
      dictGet (cleanup_old_tasks tm now).tasks task_id = none ∧
      dictGet (cleanup_old_tasks tm now).tokens task_id = none) := by
  have hmem := dictKeys_filter_mem_iff
    (q := fun e => shouldRemove tm now e) hnd hr
  have hsr := shouldRemove_eq tm now task_id r ht
  have keep : shouldRemove tm now (task_id, r) = false →
      dictGet (cleanup_old_tasks tm now).tasks task_id = some r := by
    intro hfalse
    unfold cleanup_old_tasks
    refine dictGet_filter_keep hr ?_
    have : task_id ∉ dictKeys (tm.tasks.filter (fun e => shouldRemove tm now e)) := by
      rw [hmem]
      simp [hfalse]
    simpa using this
  have remove : shouldRemove tm now (task_id, r) = true →
      dictGet (cleanup_old_tasks tm now).tasks task_id = none ∧
      dictGet (cleanup_old_tasks tm now).tokens task_id = none := by
    intro htrue
    have hin : task_id ∈ dictKeys (tm.tasks.filter (fun e => shouldRemove tm now e)) := by
      rw [hmem]
      exact htrue
    unfold cleanup_old_tasks
    constructor
    · refine dictGet_filter_none ?_
      intro e _ hke
      simp [hke, hin]
    · refine dictGet_filter_none ?_
      intro e _ hke
      simp [hke, hin]
  refine ⟨?_, ?_, ?_⟩
  · intro hyoung
    refine keep ?_
    rw [hsr]
    rcases hyoung with hs | hs | hs
    · rw [hs]
      simp [isTerminal]
    · rw [hs]
      simp [isTerminal]
    · simp [Nat.not_lt.mpr hs]
  · intro hnone
    by_cases hsrv : shouldRemove tm now (task_id, r) = true
    · rw [hsr] at hsrv
      exact ⟨by simpa using (Bool.and_eq_true _ _ |>.mp hsrv).1,
        by simpa using (Bool.and_eq_true _ _ |>.mp hsrv).2⟩
    · have := keep (by simpa using hsrv)
      rw [this] at hnone
      cases hnone
  · intro hterm hold
    refine remove ?_
    rw [hsr, hterm]
    simpa using hold

/-- C9, witnessed on a registry holding one completed task last updated at
second 10, swept at second 10000 (cutoff 6400): the task and its token
are removed. -/
theorem C9_reaper_removal_condition_witness :
    ((( "completed" : String) = "pending" ∨ ("completed" : String) = "running" ∨
        10000 - 3600 ≤ 10) →
      dictGet (cleanup_old_tasks (set_result (create_task (emptyTM Unit) "w" 0) "w" () 10) 10000).tasks "w" = some 0) ∧
    (dictGet (cleanup_old_tasks (set_result (create_task (emptyTM Unit) "w" 0) "w" () 10) 10000).tasks "w" = none →
      isTerminal "completed" = true ∧ 10 < 10000 - 3600) ∧
    (isTerminal "completed" = true → 10 < 10000 - 3600 →
      dictGet (cleanup_old_tasks (set_result (create_task (emptyTM Unit) "w" 0) "w" () 10) 10000).tasks "w" = none ∧
      dictGet (cleanup_old_tasks (set_result (create_task (emptyTM Unit) "w" 0) "w" () 10) 10000).tokens "w" = none) :=
  @C9_reaper_removal_condition Unit
    (set_result (create_task (emptyTM Unit) "w" 0) "w" () 10) 10000 "w" 0
    ⟨"w", "completed", none, some (), none, 0, 10⟩
    (by decide) (by decide) (by decide)

/-! ## Lemmas about the pipeline sort -/

/-- Descending-score order relation underlying the step-5 sort. -/
def scoreOrder (a b : ScreenRecord) : Prop := b.score ≤ a.score

theorem mem_insertDesc {y r : ScreenRecord} {l : List ScreenRecord} :
    y ∈ insertDesc r l ↔ y = r ∨ y ∈ l := by
  induction l with
  | nil => simp [insertDesc]
  | cons x xs ih =>
    unfold insertDesc
    by_cases h : scoreGE x r = true
    · rw [if_pos h]
      simp only [List.mem_cons, ih]
      tauto
    · rw [if_neg h]
      simp only [List.mem_cons]

theorem pairwise_insertDesc {r : ScreenRecord} {l : List ScreenRecord}
    (hl : l.Pairwise scoreOrder) :
    (insertDesc r l).Pairwise scoreOrder := by
  induction l with
  | nil => simp [insertDesc, scoreOrder]
  | cons x xs ih =>
    rw [List.pairwise_cons] at hl
    obtain ⟨hx, hxs⟩ := hl
    unfold insertDesc
    by_cases h : scoreGE x r = true
    · rw [if_pos h]
      rw [List.pairwise_cons]
      refine ⟨?_, ih hxs⟩
      intro y hy
      rcases mem_insertDesc.mp hy with rfl | hy
      · have hle : y.score ≤ x.score := by simpa [scoreGE] using h
        exact hle
      · exact hx y hy
    · rw [if_neg h]
      have hlt : x.score < r.score := by
        have hns : ¬ (r.score ≤ x.score) := fun hc => h (decide_eq_true hc)
        exact lt_of_not_le hns
      rw [List.pairwise_cons]
      refine ⟨?_, List.pairwise_cons.mpr ⟨hx, hxs⟩⟩
      intro y hy
      rcases List.mem_cons.mp hy with rfl | hy
      · exact le_of_lt hlt
      · exact le_trans (hx y hy) (le_of_lt hlt)

theorem length_insertDesc (r : ScreenRecord) (l : List ScreenRecord) :
    (insertDesc r l).length = l.length + 1 := by
  induction l with
  | nil => rfl
  | cons x xs ih =>
    unfold insertDesc
    by_cases h : scoreGE x r = true
    · rw [if_pos h]
      simp [ih]
    · rw [if_neg h]
      simp

theorem mem_sortDescAux {y : ScreenRecord} :
    ∀ {l acc : List ScreenRecord}, y ∈ sortDescAux acc l ↔ y ∈ acc ∨ y ∈ l := by
  intro l
  induction l with
  | nil => intro acc; simp [sortDescAux]
  | cons r rs ih =>
    intro acc
    unfold sortDescAux
    rw [ih]
    simp only [mem_insertDesc, List.mem_cons]
    tauto

theorem pairwise_sortDescAux :
    ∀ {l acc : List ScreenRecord}, acc.Pairwise scoreOrder →
      (sortDescAux acc l).Pairwise scoreOrder := by
  intro l
  induction l with
  | nil => intro acc h; exact h
  | cons r rs ih =>
    intro acc h
    unfold sortDescAux
    exact ih (pairwise_insertDesc h)

theorem length_sortDescAux :
    ∀ {l acc : List ScreenRecord},
      (sortDescAux acc l).length = acc.length + l.length := by
  intro l
  induction l with
  | nil => intro acc; simp [sortDescAux]
  | cons r rs ih =>
    intro acc
    unfold sortDescAux
    rw [ih, length_insertDesc]
    simp only [List.length_cons]
    omega

theorem mem_sortDesc {y : ScreenRecord} {l : List ScreenRecord} :
    y ∈ sortDesc l ↔ y ∈ l := by
  unfold sortDesc
  rw [mem_sortDescAux]
  simp

theorem pairwise_sortDesc (l : List ScreenRecord) :
    (sortDesc l).Pairwise scoreOrder :=
  pairwise_sortDescAux (List.Pairwise.nil)

theorem length_sortDesc (l : List ScreenRecord) :
    (sortDesc l).length = l.length := by
  unfold sortDesc
  rw [length_sortDescAux]
  simp

/-! ## Lemmas about the extraction loop -/

/-- Fields of a row unchanged by association extraction (extraction only
adds the two extracted fields and pops abstract and mesh_terms). -/
def sameCore (a b : ScreenRecord) : Prop :=
  b.score = a.score ∧ b.relevant = a.relevant ∧ b.pmid = a.pmid

theorem sameCore_refl (a : ScreenRecord) : sameCore a a := ⟨rfl, rfl, rfl⟩

theorem sameCore_extractOne (llm : AssocLLMOutcome) (r : ScreenRecord) :
    sameCore r (extractOne llm r) := ⟨rfl, rfl, rfl⟩

theorem extractLoop_forall2 (aLLM : Nat → AssocLLMOutcome) (tok : Nat → Bool) :
    ∀ (l : List ScreenRecord) (ri i : Nat),
      List.Forall₂ sameCore l (extractLoop aLLM tok ri i l).1 := by
  intro l
  induction l with
  | nil => intro ri i; exact List.Forall₂.nil
  | cons r rest ih =>
    intro ri i
    unfold extractLoop
    by_cases h : tok ri = true
    · rw [if_pos h]
      exact List.forall₂_same.mpr (fun x _ => sameCore_refl x)
    · rw [if_neg h]
      exact List.Forall₂.cons (sameCore_extractOne _ r) (ih (ri + 1) (i + 1))

theorem forall2_mem_right {R : ScreenRecord → ScreenRecord → Prop} :
    ∀ {l out : List ScreenRecord}, List.Forall₂ R l out →
      ∀ y ∈ out, ∃ x ∈ l, R x y := by
  intro l out h
  induction h with
  | nil => intro y hy; cases hy
  | cons hab _ ih =>
    intro y hy
    rcases List.mem_cons.mp hy with rfl | hy
    · exact ⟨_, List.mem_cons_self _ _, hab⟩
    · obtain ⟨x, hx, hr⟩ := ih y hy
      exact ⟨x, List.mem_cons_of_mem _ hx, hr⟩

theorem forall2_pairwise_scoreOrder :
    ∀ {l out : List ScreenRecord}, List.Forall₂ sameCore l out →
      l.Pairwise scoreOrder → out.Pairwise scoreOrder := by
  intro l out h
  induction h with
  | nil => intro _; exact List.Pairwise.nil
  | cons hab hrest ih =>
    intro hp
    rw [List.pairwise_cons] at hp ⊢
    refine ⟨?_, ih hp.2⟩
    intro y hy
    obtain ⟨x, hx, hr⟩ := forall2_mem_right hrest y hy
    have := hp.1 x hx
    unfold scoreOrder at this ⊢
    rw [hr.1, hab.1]
    exact this

/-! ## Claim C2 — shape of a completed result -/

/-- C2: when the pipeline runs with no cancellation (every token read
returns false), a non-empty PMID list and a non-empty fetched paper
list, the returned list has length at most top_n, is pairwise descending
by score, and every element has relevant = true. -/
theorem C2_completed_result_shape (gs sd : String) (mr tn : Nat) (ir : Bool)
    (ct : Option (List String)) (eo : EntrezOutcome)
    (fetchFn : List String → List Paper) (sLLM : Nat → LLMOutcome)
    (aLLM : Nat → AssocLLMOutcome) (tok : Nat → Bool)
    (hnc : ∀ n, tok n = false)
    (hpm : pubmed_search (build_search_query gs ir ct) eo ≠ [])
    (hpap : fetchFn (pubmed_search (build_search_query gs ir ct) eo) ≠ []) :
    (search_gene gs mr tn ir ct eo fetchFn sLLM aLLM tok sd).length ≤ tn ∧
    (search_gene gs mr tn ir ct eo fetchFn sLLM aLLM tok sd).Pairwise scoreOrder ∧
    ∀ r ∈ search_gene gs mr tn ir ct eo fetchFn sLLM aLLM tok sd,
      r.relevant = true := by
  unfold search_gene
  rw [hnc 0, hnc 1, hnc 2]
  simp only [Bool.false_eq_true, if_false]
  rw [List.isEmpty_eq_false_iff_exists_mem.mpr
    (List.exists_mem_of_ne_nil _ hpm)]
  simp only [Bool.false_eq_true, if_false]
  set papers := fetchFn (pubmed_search (build_search_query gs ir ct) eo) with hpapers
  set results := (screenLoop gs sd sLLM tok 3 0 papers).1 with hres
  set ri := (screenLoop gs sd sLLM tok 3 0 papers).2 with hri
  rw [hnc ri]
  simp only [Bool.false_eq_true, if_false]
  set top := sortDesc (results.filter (fun r => r.relevant)) |>.take tn with htop
  have htop_len : top.length ≤ tn := List.length_take_le _ _
  have htop_pair : top.Pairwise scoreOrder :=
    List.Pairwise.sublist (List.take_sublist _ _) (pairwise_sortDesc _)
  have htop_rel : ∀ r ∈ top, r.relevant = true := by
    intro r hr
    have := List.mem_of_mem_take hr
    have := mem_sortDesc.mp this
    exact (List.mem_filter.mp this).2
  by_cases hemp : top.isEmpty = true
  · rw [if_pos hemp]
    exact ⟨htop_len, htop_pair, htop_rel⟩
  · rw [if_neg hemp]
    have hf2 := extractLoop_forall2 aLLM tok top (ri + 1) 0
    refine ⟨?_, forall2_pairwise_scoreOrder hf2 htop_pair, ?_⟩
    · rw [← List.Forall₂.length_eq hf2]
      exact htop_len
    · intro r hr
      obtain ⟨x, hx, hrel⟩ := forall2_mem_right hf2 r hr
      rw [hrel.2.1]
      exact htop_rel x hx

/-- C2, witnessed on a concrete two-paper run with no cancellation. -/
theorem C2_completed_result_shape_witness :
    (search_gene "GENEX" 5 3 false none (.ok ["11", "22"])
        (fun _ => [⟨"11", "T1", "A1", "2020", "J", [], ""⟩,
                   ⟨"22", "T2", "A2", "2021", "J", [], ""⟩])
        (fun _ => .parsed (some true) (some 1) (some "ok"))
        (fun _ => .parsed (some "m") (some "l"))
        (fun _ => false) "2026-01-01").length ≤ 3 ∧
    (search_gene "GENEX" 5 3 false none (.ok ["11", "22"])
        (fun _ => [⟨"11", "T1", "A1", "2020", "J", [], ""⟩,
                   ⟨"22", "T2", "A2", "2021", "J", [], ""⟩])
        (fun _ => .parsed (some true) (some 1) (some "ok"))
        (fun _ => .parsed (some "m") (some "l"))
        (fun _ => false) "2026-01-01").Pairwise scoreOrder ∧
    ∀ r ∈ search_gene "GENEX" 5 3 false none (.ok ["11", "22"])
        (fun _ => [⟨"11", "T1", "A1", "2020", "J", [], ""⟩,
                   ⟨"22", "T2", "A2", "2021", "J", [], ""⟩])
        (fun _ => .parsed (some true) (some 1) (some "ok"))
        (fun _ => .parsed (some "m") (some "l"))
        (fun _ => false) "2026-01-01",
      r.relevant = true :=
  C2_completed_result_shape "GENEX" "2026-01-01" 5 3 false none (.ok ["11", "22"])
    (fun _ => [⟨"11", "T1", "A1", "2020", "J", [], ""⟩,
               ⟨"22", "T2", "A2", "2021", "J", [], ""⟩])
    (fun _ => .parsed (some true) (some 1) (some "ok"))
    (fun _ => .parsed (some "m") (some "l"))
    (fun _ => false) (fun _ => rfl) (by decide) (by decide)

/-! ## Lemmas about the screening loop -/

/-- The list of rows produced by screening a list of papers in order,
starting at per-paper LLM outcome index pi. -/
def mapScreen (gene_symbol search_date : String) (sLLM : Nat → LLMOutcome) :
    Nat → List Paper → List ScreenRecord
  | _, [] => []
  | pi, p :: ps =>
    screenRec gene_symbol search_date (sLLM pi) p
      :: mapScreen gene_symbol search_date sLLM (pi + 1) ps

theorem length_mapScreen (gs sd : String) (sLLM : Nat → LLMOutcome) :
    ∀ (pi : Nat) (l : List Paper),
      (mapScreen gs sd sLLM pi l).length = l.length := by
  intro pi l
  induction l generalizing pi with
  | nil => rfl
  | cons p ps ih => simp [mapScreen, ih]

theorem mem_mapScreen (gs sd : String) (sLLM : Nat → LLMOutcome) :
    ∀ (l : List Paper) (pi : Nat) (y : ScreenRecord),
      y ∈ mapScreen gs sd sLLM pi l →
      ∃ i, ∃ h : i < l.length, y = screenRec gs sd (sLLM (pi + i)) (l.get ⟨i, h⟩) := by
  intro l
  induction l with
  | nil => intro pi y hy; cases hy
  | cons p ps ih =>
    intro pi y hy
    rcases List.mem_cons.mp hy with rfl | hy
    · exact ⟨0, by simp, by simp⟩
    · obtain ⟨i, hi, hrfl⟩ := ih (pi + 1) y hy
      refine ⟨i + 1, by simpa using Nat.succ_lt_succ hi, ?_⟩
      simpa [Nat.add_assoc, Nat.add_comm 1 i] using hrfl

/-- When the token reads of the screening loop are false for the first k
papers and true at the k-th checkpoint (k < number of papers), the loop
returns exactly the rows of the first k papers and consumes k+1 reads. -/
theorem screenLoop_cancel_at (gs sd : String) (sLLM : Nat → LLMOutcome)
    (tok : Nat → Bool) :
    ∀ (l : List Paper) (k ri pi : Nat),
      (∀ i, i < k → tok (ri + i) = false) → tok (ri + k) = true →
      k < l.length →
      screenLoop gs sd sLLM tok ri pi l
        = (mapScreen gs sd sLLM pi (l.take k), ri + k + 1) := by
  intro l
  induction l with
  | nil =>
    intro k ri pi _ _ hk
    simp at hk
  | cons p ps ih =>
    intro k ri pi hfalse htrue hk
    cases k with
    | zero =>
      unfold screenLoop
      rw [show ri + 0 = ri by omega] at htrue
      rw [if_pos htrue]
      simp [mapScreen]
    | succ k =>
      unfold screenLoop
      have h0 : tok ri = false := by simpa using hfalse 0 (by omega)
      rw [if_neg (by simp [h0])]
      have ihs := ih k (ri + 1) (pi + 1)
        (fun i hi => by
          have := hfalse (i + 1) (by omega)
          simpa [Nat.add_assoc, Nat.add_comm 1 i] using this)
        (by
          have := htrue
          simpa [Nat.add_assoc, Nat.add_comm 1 k] using this)
        (by simpa using Nat.lt_of_succ_lt_succ hk)
      rw [List.take_succ_cons]
      simp only [mapScreen]
      rw [ihs]
      dsimp only
      rw [Prod.mk.injEq]
      exact ⟨rfl, by omega⟩

/-! ## Claim C8 — cancellation mid-screening bounds the result -/

/-- C8: if the pipeline observes cancellation at the screening checkpoint
after k of the fetched papers have been screened (token reads false
before the first three checkpoints and before each of the first k
papers, true at the k-th in-loop checkpoint, with the flag monotone as a
CancellationToken is), then the returned list has at most k elements and
every returned row is the screening row of one of the first k fetched
papers (and is relevant); no data from the unscreened papers appears. -/
theorem C8_cancellation_bounds_result (gs sd : String) (mr tn : Nat) (ir : Bool)
    (ct : Option (List String)) (eo : EntrezOutcome)
    (fetchFn : List String → List Paper) (sLLM : Nat → LLMOutcome)
    (aLLM : Nat → AssocLLMOutcome) (tok : Nat → Bool) (k : Nat)
    (hmono : ∀ i j, i ≤ j → tok i = true → tok j = true)
    (h0 : tok 0 = false) (h1 : tok 1 = false) (h2 : tok 2 = false)
    (hk : ∀ i, i < k → tok (3 + i) = false)
    (hck : tok (3 + k) = true)
    (hkn : k < (fetchFn (pubmed_search (build_search_query gs ir ct) eo)).length)
    (hpm : pubmed_search (build_search_query gs ir ct) eo ≠ []) :
    (search_gene gs mr tn ir ct eo fetchFn sLLM aLLM tok sd).length ≤ k ∧
    ∀ r ∈ search_gene gs mr tn ir ct eo fetchFn sLLM aLLM tok sd,
      r.relevant = true ∧
      ∃ i, i < k ∧
        ∃ h : i < (fetchFn (pubmed_search (build_search_query gs ir ct) eo)).length,
          r = screenRec gs sd (sLLM i)
            ((fetchFn (pubmed_search (build_search_query gs ir ct) eo)).get ⟨i, h⟩) := by
  unfold search_gene
  rw [h0, h1, h2]
  simp only [Bool.false_eq_true, if_false]
  rw [List.isEmpty_eq_false_iff_exists_mem.mpr
    (List.exists_mem_of_ne_nil _ hpm)]
  simp only [Bool.false_eq_true, if_false]
  set papers := fetchFn (pubmed_search (build_search_query gs ir ct) eo) with hpapers
  have hsl := screenLoop_cancel_at gs sd sLLM tok papers k 3 0 hk hck hkn
  rw [hsl]
  dsimp only
  have hlast : tok (3 + k + 1) = true := hmono (3 + k) (3 + k + 1) (by omega) hck
  rw [hlast]
  simp only [if_true]
  set screened := mapScreen gs sd sLLM 0 (papers.take k) with hscr
  set top := (sortDesc (screened.filter (fun r => r.relevant))).take tn with htop
  constructor
  · calc top.length ≤ (sortDesc (screened.filter (fun r => r.relevant))).length :=
          (List.take_sublist _ _).length_le
      _ = (screened.filter (fun r => r.relevant)).length := length_sortDesc _
      _ ≤ screened.length := List.length_filter_le _ _
      _ = (papers.take k).length := length_mapScreen gs sd sLLM 0 _
      _ ≤ k := List.length_take_le _ _
  · intro r hr
    have hmem := List.mem_of_mem_take hr
    have hmem2 := mem_sortDesc.mp hmem
    have hfil := List.mem_filter.mp hmem2
    refine ⟨by simpa using hfil.2, ?_⟩
    obtain ⟨i, hi, hrfl⟩ := mem_mapScreen gs sd sLLM (papers.take k) 0 r hfil.1
    have hik : i < k := lt_of_lt_of_le hi (by simp [List.length_take])
    have hip : i < papers.length := by
      have := hi
      rw [List.length_take] at this
      omega
    refine ⟨i, hik, hip, ?_⟩
    rw [hrfl]
    congr 1
    · simp
    · rw [List.get_eq_getElem, List.get_eq_getElem]
      exact List.getElem_take papers

/-- C8, witnessed on a run of three fetched papers whose cancellation flag
turns true at the fifth token read, i.e. after two papers were screened. -/
theorem C8_cancellation_bounds_result_witness :
    (search_gene "GENEX" 5 3 false none (.ok ["1", "2", "3"])
        (fun _ => [⟨"1", "T1", "A1", "2020", "J", [], ""⟩,
                   ⟨"2", "T2", "A2", "2021", "J", [], ""⟩,
                   ⟨"3", "T3", "A3", "2022", "J", [], ""⟩])
        (fun _ => .parsed (some true) (some 1) (some "ok"))
        (fun _ => .parsed (some "m") (some "l"))
        (fun n => decide (5 ≤ n)) "2026-01-01").length ≤ 2 ∧
    ∀ r ∈ search_gene "GENEX" 5 3 false none (.ok ["1", "2", "3"])
        (fun _ => [⟨"1", "T1", "A1", "2020", "J", [], ""⟩,
                   ⟨"2", "T2", "A2", "2021", "J", [], ""⟩,
                   ⟨"3", "T3", "A3", "2022", "J", [], ""⟩])
        (fun _ => .parsed (some true) (some 1) (some "ok"))
        (fun _ => .parsed (some "m") (some "l"))
        (fun n => decide (5 ≤ n)) "2026-01-01",
      r.relevant = true ∧
      ∃ i, i < 2 ∧
        ∃ h : i < ((fun _ => [⟨"1", "T1", "A1", "2020", "J", [], ""⟩,
                   ⟨"2", "T2", "A2", "2021", "J", [], ""⟩,
                   ⟨"3", "T3", "A3", "2022", "J", [], ""⟩] : List String → List Paper)
                 (pubmed_search (build_search_query "GENEX" false none) (.ok ["1", "2", "3"]))).length,
          r = screenRec "GENEX" "2026-01-01"
            ((fun _ => LLMOutcome.parsed (some true) (some 1) (some "ok")) i)
            (((fun _ => [⟨"1", "T1", "A1", "2020", "J", [], ""⟩,
                   ⟨"2", "T2", "A2", "2021", "J", [], ""⟩,
                   ⟨"3", "T3", "A3", "2022", "J", [], ""⟩] : List String → List Paper)
                 (pubmed_search (build_search_query "GENEX" false none) (.ok ["1", "2", "3"]))).get ⟨i, h⟩) :=
  C8_cancellation_bounds_result "GENEX" "2026-01-01" 5 3 false none
    (.ok ["1", "2", "3"])
    (fun _ => [⟨"1", "T1", "A1", "2020", "J", [], ""⟩,
               ⟨"2", "T2", "A2", "2021", "J", [], ""⟩,
               ⟨"3", "T3", "A3", "2022", "J", [], ""⟩])
    (fun _ => .parsed (some true) (some 1) (some "ok"))
    (fun _ => .parsed (some "m") (some "l"))
    (fun n => decide (5 ≤ n)) 2
    (fun i j hij hi => by
      simp only [decide_eq_true_eq] at hi ⊢
      omega)
    (by decide) (by decide) (by decide) (by decide) (by decide) (by decide)
    (by decide)

/-! ## Claim C4 — a search exception does not propagate -/

/-- C4 counterexample: the claim states that an exception raised during
the PubMed search step propagates out of the pipeline to the task
runner, which records status "failed" with that exception's message,
and that the pipeline does not continue past the Search step with a
substitute value.  In the source, PubMed.search catches every exception
itself and returns the one-element list ["Error searching PubMed: ..."];
invoked as in batch_search_genes (gene_search.py:351, a direct call
with no token and no task runner), the pipeline takes this non-empty
list for a PMID list and continues past the Search step: fetching the
bogus id degrades to an error dict whose fields default to empty
strings, the paper is screened out as "Missing title", and search_gene
returns [] normally — the exception never leaves PubMed.search. -/
theorem C4_search_exception_swallowed_counterexample :
    pubmed_search (build_search_query "NRF2" false none) (.raise "HTTP 500")
      = ["Error searching PubMed: HTTP 500"] ∧
    ["Error searching PubMed: HTTP 500"] ≠ ([] : List String) ∧
    search_gene "NRF2" 200 20 false none (.raise "HTTP 500")
        (fun _ => [⟨"", "", "", "", "", [], ""⟩])
        (fun _ => .raised "unused") (fun _ => .raised "unused")
        (fun _ => false) "2026-01-01"
      = [] := by
  decide

/-- C4 amended: an exception inside the Entrez call of PubMed.search is
caught inside PubMed.search itself and converted into the substitute
value ["Error searching PubMed: <message>"], a non-empty list; when the
pipeline runs (as in the direct batch_search_genes invocation) it
continues past the Search step with that substitute value and returns
normally, so no search exception ever reaches the Task Runner.
Independently, the Task Runner path never reaches the search step at
all: the search_gene call in run_gene_search_task passes the
unsupported gene_id keyword and raises TypeError at once, so every
worker-run task whose id exists ends "failed" with the TypeError's
message — never with a search exception's message. -/
theorem C4_search_exception_substitute_value (msg terr : String) :
    pubmed_search (build_search_query "NRF2" false none) (.raise msg)
      = ["Error searching PubMed: " ++ msg] ∧
    pubmed_search (build_search_query "NRF2" false none) (.raise msg) ≠ [] ∧
    search_gene "NRF2" 200 20 false none (.raise msg)
        (fun _ => [⟨"", "", "", "", "", [], ""⟩])
        (fun _ => .raised "unused") (fun _ => .raised "unused")
        (fun _ => false) "2026-01-01"
      = [] ∧
    task_status (run_gene_search_task (create_task (emptyTM SearchPayload) "t" 0)
        "t" terr 1) "t" = some "failed" ∧
    task_error (run_gene_search_task (create_task (emptyTM SearchPayload) "t" 0)
        "t" terr 1) "t" = some (some terr) := by
  refine ⟨rfl, by simp [pubmed_search], ?_, ?_, ?_⟩ <;> rfl
